import Mathlib

/-
Verification of the places-mcp repository against its specification.

The repository (src/places_mcp.py) reads an OpenAPI document, constructs a
shared HTTP client (base URL, credential default parameter, timeout) and
hands both to a generic OpenAPI-to-tool translator.  The translator itself
(spec loader, operation compiler, invoker) lives in an external library and
is therefore modelled here from the specification's own contract
(sections 3, 4, 6, 7 of spec.md); the client construction and the constants
it uses are embedded directly from src/places_mcp.py.
-/

namespace PlacesMCP

/-- JSON-like values: decoded request arguments and response bodies.
Numbers are modelled as integers; the claims only need exact values. -/
inductive JVal where
  | null
  | bool (b : Bool)
  | num (n : Int)
  | str (s : String)
  | arr (xs : List JVal)
  | obj (fields : List (String × JVal))

/-- Declared parameter types of the specification's data model. -/
inductive ParamType where
  | string
  | number
  | boolean
  | array
  | object
deriving DecidableEq, Repr

/-- Where an input argument is serialized in an HTTP request. -/
inductive Placement where
  | path
  | query
  | header
  | bodyField
deriving DecidableEq, Repr

/-- HTTP methods appearing in the specification document. -/
inductive Method where
  | get
  | post
  | put
  | patch
  | delete
deriving DecidableEq, Repr

/-- Write-like methods take body-placement defaults; read-like take query. -/
def Method.isWrite : Method → Bool
  | .post => true
  | .put => true
  | .patch => true
  | _ => false

/-- Modelled from the spec: a Parameter Spec — name, declared type,
optional explicit placement, required flag, optional default value. -/
structure ParameterSpec where
  name : String
  type : ParamType
  placement : Option Placement
  required : Bool
  defaultValue : Option JVal

/-- A segment of a path template: literal text or a placeholder. -/
inductive PathSeg where
  | lit (s : String)
  | hole (name : String)
deriving DecidableEq, Repr

/-- Modelled from the spec: an Operation derived from a Path Entry —
unique name, description, HTTP method, path template, parameter list,
body flag and the status codes declared as success in the Response Spec. -/
structure Operation where
  name : String
  description : String
  method : Method
  pathTemplate : List PathSeg
  params : List ParameterSpec
  hasBody : Bool
  successCodes : List Nat

/-- One entry of an input schema: argument name, declared type, required
flag and the transport placement bound by the Operation Compiler. -/
structure InputField where
  name : String
  type : ParamType
  required : Bool
  placement : Placement

/-- Modelled from the spec: a Tool Descriptor — name, description, input
schema and a reference to its source Operation. -/
structure ToolDescriptor where
  name : String
  description : String
  inputSchema : List InputField
  source : Operation

/-- Modelled from the spec: the shared Transport collaborator — base URL,
default query parameters (the injected credential) and per-call timeout
in seconds. -/
structure Transport where
  baseUrl : String
  defaultParams : List (String × String)
  timeout : Nat
deriving DecidableEq, Repr

/-- Name of the credential environment variable (src/places_mcp.py). -/
def credentialEnvVar : String := "GOOGLE_API_KEY"

/-- Embedding of the client construction in src/places_mcp.py lines 21-25:
base URL https://maps.googleapis.com, the credential read from the
GOOGLE_API_KEY environment variable (empty string when unset) injected as
the default query parameter named key, and a 30 second timeout.  The
environment is an explicit lookup function, consulted once here. -/
def mkClient (env : String → Option String) : Transport :=
  { baseUrl := "https://maps.googleapis.com"
  , defaultParams := [("key", (env credentialEnvVar).getD "")]
  , timeout := 30 }

/-- Build-time errors of the translator (spec section 7). -/
inductive BuildError where
  | malformedSpec
  | duplicateOperation
  | parameterConflict
deriving DecidableEq, Repr

/-- Modelled from the spec: a Path Entry of the Specification Document.
Required fields (method, path, response schema) are optional here so that
their absence is representable and is rejected by the Spec Loader. -/
structure PathEntry where
  opName : String
  description : String
  method : Option Method
  pathTemplate : Option (List PathSeg)
  params : List ParameterSpec
  hasBody : Bool
  responses : Option (List Nat)

/-- Placeholder names of a path template. -/
def holeNames (tmpl : List PathSeg) : List String :=
  tmpl.filterMap fun s =>
    match s with
    | .lit _ => none
    | .hole n => some n

/-- Does a placeholder have exactly one matching path-placement parameter? -/
def holeCovered (ps : List ParameterSpec) (n : String) : Bool :=
  (ps.filter fun p => p.name == n && p.placement == some Placement.path).length == 1

/-- Modelled from the spec: the Spec Loader on one Path Entry.  Fails with
MalformedSpecError when method, path or response schema is absent, or when
a path placeholder lacks exactly one path-placement parameter. -/
def loadEntry (e : PathEntry) : Except BuildError Operation :=
  match e.method, e.pathTemplate, e.responses with
  | some m, some tmpl, some rs =>
      if (holeNames tmpl).all (holeCovered e.params) then
        .ok { name := e.opName, description := e.description, method := m
            , pathTemplate := tmpl, params := e.params
            , hasBody := e.hasBody, successCodes := rs }
      else .error .malformedSpec
  | _, _, _ => .error .malformedSpec

/-- Effective placement of a parameter: the explicit one when present,
otherwise query for read operations and body for write operations. -/
def effectivePlacement (m : Method) (p : ParameterSpec) : Placement :=
  p.placement.getD (if m.isWrite then .bodyField else .query)

/-- Two input fields with the same name but different placements conflict. -/
def hasConflict : List InputField → Bool
  | [] => false
  | f :: fs =>
      fs.any (fun g => g.name == f.name && g.placement != f.placement)
        || hasConflict fs

/-- Modelled from the spec: the Operation Compiler.  Pure function mapping
each Parameter Spec to an input-schema entry of the same name, type and
required flag, with its effective placement; same-name parameters with
different placements fail with ParameterConflictError. -/
def compile (op : Operation) : Except BuildError ToolDescriptor :=
  let fields := op.params.map fun p =>
    { name := p.name, type := p.type, required := p.required
    , placement := effectivePlacement op.method p : InputField }
  if hasConflict fields then .error .parameterConflict
  else .ok { name := op.name, description := op.description
           , inputSchema := fields, source := op }

/-- Modelled from the spec: building the whole tool set.  A global name
collision fails the document with DuplicateOperationError; otherwise each
entry is loaded and compiled independently, so a build-time error aborts
only the affected Tool Descriptor. -/
def buildTools (entries : List PathEntry) :
    Except BuildError (List (Except BuildError ToolDescriptor)) :=
  if (entries.map PathEntry.opName).Nodup then
    .ok (entries.map fun e => loadEntry e >>= compile)
  else .error .duplicateOperation

/-- Names of the successfully compiled descriptors of a tool set. -/
def toolNames (ts : List (Except BuildError ToolDescriptor)) : List String :=
  ts.filterMap fun r =>
    match r with
    | .ok td => some td.name
    | .error _ => none

/-- Embedding of the server construction in src/places_mcp.py lines 29-33:
one server holding the single shared client and the tool set generated
from the OpenAPI document. -/
structure Server where
  name : String
  transport : Transport
  tools : List (Except BuildError ToolDescriptor)

/-- Modelled from the spec: deriving the tool set from an OpenAPI document
and a pre-configured transport (FastMCP.from_openapi in the source). -/
def fromOpenapi (doc : List PathEntry) (cl : Transport) (nm : String) :
    Except BuildError Server :=
  (buildTools doc).map fun ts => { name := nm, transport := cl, tools := ts }

/-- Does a value agree with its declared parameter type? -/
def typeCompatible : ParamType → JVal → Bool
  | .string, .str _ => true
  | .number, .num _ => true
  | .boolean, .bool _ => true
  | .array, .arr _ => true
  | .object, .obj _ => true
  | _, _ => false

/-- Modelled from the spec: argument validation against the input schema.
Returns the names of the offending fields: required arguments that are
absent, then present arguments whose value has an incompatible type. -/
def validateArgs (schema : List InputField) (args : List (String × JVal)) :
    List String :=
  (schema.filter fun f => f.required && (args.lookup f.name).isNone).map
      InputField.name
    ++ args.filterMap fun a =>
        match schema.find? fun f => f.name == a.1 with
        | some f => if typeCompatible f.type a.2 then none else some a.1
        | none => none

/-- Stringification of argument values for path and query serialization. -/
def stringifyJVal : JVal → String
  | .null => "null"
  | .bool b => if b then "true" else "false"
  | .num n => toString n
  | .str s => s
  | .arr _ => "[array]"
  | .obj _ => "[object]"

/-- Modelled from the spec: path-placeholder substitution.  Each
placeholder is replaced by the stringified argument of the same name; a
missing path argument, or a stringified value containing an unescaped
segment separator, fails with the offending field's name. -/
def substPath (tmpl : List PathSeg) (args : List (String × JVal)) :
    Except String (List String) :=
  tmpl.mapM fun s =>
    match s with
    | .lit t => .ok t
    | .hole n =>
        match args.lookup n with
        | some v =>
            let sv := stringifyJVal v
            if sv.contains '/' then .error n else .ok sv
        | none => .error n

/-- Render concrete path segments as a path string. -/
def renderPath (segs : List String) : String :=
  segs.foldl (fun acc s => acc ++ "/" ++ s) ""

/-- Serialized arguments bound to one placement by the input schema. -/
def serializeFor (pl : Placement) (schema : List InputField)
    (args : List (String × JVal)) : List (String × String) :=
  schema.filterMap fun f =>
    if f.placement = pl then
      (args.lookup f.name).map fun v => (f.name, stringifyJVal v)
    else none

/-- Arguments bound to body placement, kept as structured values. -/
def bodyFieldsOf (schema : List InputField) (args : List (String × JVal)) :
    List (String × JVal) :=
  schema.filterMap fun f =>
    if f.placement = Placement.bodyField then
      (args.lookup f.name).map fun v => (f.name, v)
    else none

/-- Modelled from the spec: merging transport-level default parameters
with per-call parameters.  Defaults come first and a per-call parameter
sharing a default's name is dropped, so per-call parameters never
overwrite a caller-invisible mandatory default such as the credential. -/
def mergeParams (defaults perCall : List (String × String)) :
    List (String × String) :=
  defaults ++ perCall.filter fun p => (defaults.lookup p.1).isNone

/-- A concrete outgoing HTTP request. -/
structure Request where
  method : Method
  path : String
  query : List (String × String)
  headers : List (String × String)
  body : Option (List (String × JVal))

/-- Outcome of executing one request at the transport level. -/
inductive Outcome where
  | response (status : Nat) (body : JVal)
  | timedOut
  | connRefused

/-- Kinds of transport-level failure. -/
inductive TKind where
  | timeout
  | connection
deriving DecidableEq, Repr

/-- Modelled from the spec: an Invocation Result — a structured success
value or one of the typed call-time failures. -/
inductive InvocationResult where
  | success (body : JVal)
  | validationError (fields : List String)
  | pathSubstitutionError (field : String)
  | transportError (kind : TKind)
  | remoteError (status : Nat) (body : JVal)

/-- Modelled from the spec: request assembly (Invoker steps 2 and 3) —
substituted path, query and header values serialized by placement,
transport defaults merged into the query, body assembled when present. -/
def buildRequest (t : Transport) (td : ToolDescriptor)
    (args : List (String × JVal)) (segs : List String) : Request :=
  { method := td.source.method
  , path := renderPath segs
  , query := mergeParams t.defaultParams
      (serializeFor .query td.inputSchema args)
  , headers := serializeFor .header td.inputSchema args
  , body := if td.source.hasBody then
      some (bodyFieldsOf td.inputSchema args) else none }

/-- Modelled from the spec: the Invoker.  Validates the arguments (no
request on failure), builds the request, executes exactly one request
through the shared transport, and maps the response: declared success
status to decoded body, other statuses to RemoteError, transport failures
to TransportError.  The second component lists the requests issued. -/
def invoke (t : Transport) (respond : Request → Outcome)
    (td : ToolDescriptor) (args : List (String × JVal)) :
    InvocationResult × List Request :=
  if (validateArgs td.inputSchema args).isEmpty then
    match substPath td.source.pathTemplate args with
    | .error f => (.pathSubstitutionError f, [])
    | .ok segs =>
        match respond (buildRequest t td args segs) with
        | .response s b =>
            if td.source.successCodes.contains s then
              (.success b, [buildRequest t td args segs])
            else (.remoteError s b, [buildRequest t td args segs])
        | .timedOut => (.transportError .timeout, [buildRequest t td args segs])
        | .connRefused =>
            (.transportError .connection, [buildRequest t td args segs])
  else (.validationError (validateArgs td.inputSchema args), [])

/-! Helper lemmas shared by the claim theorems. -/

theorem lookup_append_left (l₁ l₂ : List (String × String)) (k v : String)
    (h : l₁.lookup k = some v) : (l₁ ++ l₂).lookup k = some v := by
  induction l₁ with
  | nil => simp [List.lookup] at h
  | cons a l ih =>
      obtain ⟨a₁, a₂⟩ := a
      rw [List.cons_append]
      simp only [List.lookup] at h ⊢
      cases hek : (k == a₁) with
      | true => rw [hek] at h; simpa using h
      | false => rw [hek] at h; exact ih h

theorem lookup_mergeParams_of_default (defaults extra : List (String × String))
    (k v : String) (h : defaults.lookup k = some v) :
    (mergeParams defaults extra).lookup k = some v :=
  lookup_append_left defaults _ k v h

theorem invoke_requests (t : Transport) (respond : Request → Outcome)
    (td : ToolDescriptor) (args : List (String × JVal)) :
    ∀ req ∈ (invoke t respond td args).2,
      ∃ segs, substPath td.source.pathTemplate args = .ok segs ∧
        req = buildRequest t td args segs := by
  intro req hreq
  unfold invoke at hreq
  split at hreq
  · split at hreq
    · simp at hreq
    · next segs hs =>
        refine ⟨segs, hs, ?_⟩
        split at hreq
        · split at hreq <;> (simp at hreq; exact hreq)
        · simp at hreq; exact hreq
        · simp at hreq; exact hreq
  · simp at hreq

/-! C1 -/

/-- C1: for every invocation, the credential default parameter configured on
the shared Transport is present in the outgoing request, and the value sent
for the key parameter equals the Transport's configured default, whatever
arguments the caller supplies — including an argument named key: per-call
parameters never overwrite the mandatory credential default. -/
theorem credential_default_preserved (t : Transport) (cred : String)
    (respond : Request → Outcome) (td : ToolDescriptor)
    (args : List (String × JVal))
    (hc : t.defaultParams.lookup "key" = some cred) :
    ∀ req ∈ (invoke t respond td args).2,
      req.query.lookup "key" = some cred := by
  intro req hreq
  obtain ⟨segs, _, rfl⟩ := invoke_requests t respond td args req hreq
  exact lookup_mergeParams_of_default t.defaultParams _ "key" cred hc

/-- A sample text-search operation used to instantiate the claim theorems:
a GET operation with two query parameters, one of them named key. -/
def sampleOp : Operation :=
  { name := "textSearch", description := "Search for places by text query"
  , method := .get
  , pathTemplate := [.lit "maps", .lit "api", .lit "place",
      .lit "textsearch", .lit "json"]
  , params :=
      [ { name := "query", type := .string, placement := some .query
        , required := true, defaultValue := none }
      , { name := "key", type := .string, placement := some .query
        , required := false, defaultValue := none } ]
  , hasBody := false
  , successCodes := [200] }

/-- The Tool Descriptor the Operation Compiler derives from sampleOp. -/
def sampleTd : ToolDescriptor :=
  { name := "textSearch", description := "Search for places by text query"
  , inputSchema :=
      [ { name := "query", type := .string, required := true
        , placement := .query }
      , { name := "key", type := .string, required := false
        , placement := .query } ]
  , source := sampleOp }

/-- A transport holding a concrete credential default. -/
def sampleTransport : Transport :=
  { baseUrl := "https://maps.googleapis.com"
  , defaultParams := [("key", "SECRET")]
  , timeout := 30 }

theorem sampleTd_compiles : compile sampleOp = .ok sampleTd := rfl

/-- Witness for C1: a caller that passes its own key argument still sends
the transport's credential; the invocation issues exactly one request. -/
theorem credential_default_preserved_witness :
    (invoke sampleTransport (fun _ => .response 200 (.obj [])) sampleTd
        [("query", .str "pizza"), ("key", .str "evil")]).2.length = 1 ∧
    ∀ req ∈ (invoke sampleTransport (fun _ => .response 200 (.obj []))
        sampleTd [("query", .str "pizza"), ("key", .str "evil")]).2,
      req.query.lookup "key" = some "SECRET" :=
  ⟨rfl, credential_default_preserved sampleTransport "SECRET" _ sampleTd _ rfl⟩

/-! C7 -/

/-- C7: compile is a deterministic pure function of its input Operation:
two calls of compile on the same Operation yield Tool Descriptors that are
deeply (structurally) equal. -/
theorem compile_deterministic (op₁ op₂ : Operation) (h : op₁ = op₂) :
    compile op₁ = compile op₂ := by rw [h]

/-- Witness for C7: compiling the sample operation twice gives the same
descriptor. -/
theorem compile_deterministic_witness : compile sampleOp = compile sampleOp :=
  compile_deterministic sampleOp sampleOp rfl

/-! C2 -/

/-- C2: for every invocation whose HTTP response arrives, a status code
declared as success in the Operation's Response Spec yields a success
result equal to the decoded response body, and any other status code
yields a RemoteError carrying exactly that status code and the raw body. -/
theorem response_status_mapping (t : Transport) (td : ToolDescriptor)
    (args : List (String × JVal)) (s : Nat) (b : JVal) (segs : List String)
    (hv : (validateArgs td.inputSchema args).isEmpty = true)
    (hp : substPath td.source.pathTemplate args = .ok segs) :
    (s ∈ td.source.successCodes →
      (invoke t (fun _ => .response s b) td args).1 = .success b) ∧
    (s ∉ td.source.successCodes →
      (invoke t (fun _ => .response s b) td args).1 = .remoteError s b) := by
  constructor <;> intro hs <;>
    (unfold invoke; rw [if_pos hv, hp]; simp [hs])

/-- The decoded body of the stub success response of the spec scenario. -/
def okBody : JVal := .obj [("results", .arr [])]

/-- The raw body of the stub failure response of the spec scenario. -/
def errBody : JVal := .obj [("error", .str "bad key")]

/-- Witness for C2, following the spec scenario: a stub returning 200 with
results yields that body as success; a stub returning 403 with an error
body yields RemoteError with status 403 and that raw body. -/
theorem response_status_mapping_witness :
    (invoke sampleTransport (fun _ => .response 200 okBody) sampleTd
        [("query", .str "pizza")]).1 = .success okBody ∧
    (invoke sampleTransport (fun _ => .response 403 errBody) sampleTd
        [("query", .str "pizza")]).1 = .remoteError 403 errBody :=
  ⟨(response_status_mapping sampleTransport sampleTd [("query", .str "pizza")]
      200 okBody _ rfl rfl).1 (by decide),
   (response_status_mapping sampleTransport sampleTd [("query", .str "pizza")]
      403 errBody _ rfl rfl).2 (by decide)⟩

/-! C3 -/

/-- C3: for every Tool Descriptor and argument set failing validation —
a required argument missing, or an argument value incompatible with its
declared type — invoke returns a ValidationError naming the offending
fields and sends zero HTTP requests through the Transport; in particular
every missing required field is named in the error. -/
theorem validation_blocks_request (t : Transport) (respond : Request → Outcome)
    (td : ToolDescriptor) (args : List (String × JVal))
    (hv : (validateArgs td.inputSchema args).isEmpty = false) :
    invoke t respond td args =
      (.validationError (validateArgs td.inputSchema args), []) ∧
    ∀ f ∈ td.inputSchema, f.required = true → args.lookup f.name = none →
      f.name ∈ validateArgs td.inputSchema args := by
  refine ⟨by simp [invoke, hv], ?_⟩
  intro f hf hreq hnone
  unfold validateArgs
  refine List.mem_append.mpr (Or.inl ?_)
  refine List.mem_map.mpr ⟨f, ?_, rfl⟩
  refine List.mem_filter.mpr ⟨hf, ?_⟩
  simp [hreq, hnone]

/-- Witness for C3: a Tool Descriptor requiring query, invoked with no
arguments, yields ValidationError naming query and issues zero requests. -/
theorem validation_blocks_request_witness :
    invoke sampleTransport (fun _ => .response 200 okBody) sampleTd [] =
      (.validationError ["query"], []) ∧
    "query" ∈ validateArgs sampleTd.inputSchema [] := by
  have h := validation_blocks_request sampleTransport
    (fun _ => .response 200 okBody) sampleTd [] rfl
  exact ⟨h.1, h.2 ⟨"query", .string, true, .query⟩
    (List.mem_cons_self _ _) rfl rfl⟩

/-! C4 -/

theorem toolName_eq_opName (e : PathEntry) (td : ToolDescriptor)
    (h : loadEntry e >>= compile = .ok td) : td.name = e.opName := by
  unfold loadEntry at h
  split at h
  · split at h
    · rw [show ∀ op, (Except.ok op >>= compile :
          Except BuildError ToolDescriptor) = compile op from fun _ => rfl] at h
      unfold compile at h
      dsimp only at h
      split at h
      · cases h
      · cases h; rfl
    · cases h
  · cases h

theorem toolNames_map_eq (l : List PathEntry)
    (hl : ∀ e ∈ l, (loadEntry e >>= compile).isOk = true) :
    toolNames (l.map fun e => loadEntry e >>= compile) =
      l.map PathEntry.opName := by
  induction l with
  | nil => rfl
  | cons e l ih =>
      have he := hl e (List.mem_cons_self _ _)
      obtain ⟨td, htd⟩ : ∃ td, loadEntry e >>= compile = .ok td := by
        cases hh : loadEntry e >>= compile with
        | ok td => exact ⟨td, rfl⟩
        | error err => rw [hh] at he; simp [Except.isOk, Except.toBool] at he
      simp only [List.map_cons, toolNames, List.filterMap_cons, htd]
      rw [toolName_eq_opName e td htd]
      exact congrArg _ (ih fun x hx => hl x (List.mem_cons_of_mem _ hx))

/-- C4: for every well-formed Specification Document — unique operation
names, every Path Entry loading and compiling — buildTools yields exactly
one Tool Descriptor per Path Entry, named after its entry, with a unique
set of names; a duplicate operation name fails the document with
DuplicateOperationError. -/
theorem buildTools_one_tool_per_entry (entries : List PathEntry) :
    ((entries.map PathEntry.opName).Nodup →
      (∀ e ∈ entries, (loadEntry e >>= compile).isOk = true) →
      ∃ ts, buildTools entries = .ok ts ∧ ts.length = entries.length ∧
        toolNames ts = entries.map PathEntry.opName ∧
        (toolNames ts).Nodup) ∧
    (¬ (entries.map PathEntry.opName).Nodup →
      buildTools entries = .error .duplicateOperation) := by
  constructor
  · intro hn hw
    refine ⟨entries.map fun e => loadEntry e >>= compile, ?_,
      List.length_map _ _, ?_, ?_⟩
    · unfold buildTools; rw [if_pos hn]
    · exact toolNames_map_eq entries hw
    · rw [toolNames_map_eq entries hw]; exact hn
  · intro hn
    unfold buildTools; rw [if_neg hn]

/-- A second sample Path Entry: the place-details operation. -/
def detailsEntry : PathEntry :=
  { opName := "placeDetails", description := "Get details about a place"
  , method := some .get
  , pathTemplate := some [.lit "maps", .lit "api", .lit "place",
      .lit "details", .lit "json"]
  , params :=
      [ { name := "place_id", type := .string, placement := some .query
        , required := true, defaultValue := none } ]
  , hasBody := false
  , responses := some [200] }

/-- The sample text-search operation as a Path Entry. -/
def searchEntry : PathEntry :=
  { opName := "textSearch", description := "Search for places by text query"
  , method := some .get
  , pathTemplate := some sampleOp.pathTemplate
  , params := sampleOp.params
  , hasBody := false
  , responses := some [200] }

/-- Witness for C4: a two-entry document compiles to two uniquely named
tools; repeating an entry fails with DuplicateOperationError. -/
theorem buildTools_one_tool_per_entry_witness :
    (∃ ts, buildTools [searchEntry, detailsEntry] = .ok ts ∧
      ts.length = 2 ∧ toolNames ts = ["textSearch", "placeDetails"] ∧
      (toolNames ts).Nodup) ∧
    buildTools [searchEntry, searchEntry] = .error .duplicateOperation :=
  ⟨(buildTools_one_tool_per_entry [searchEntry, detailsEntry]).1
      (by decide) (by decide),
   (buildTools_one_tool_per_entry [searchEntry, searchEntry]).2 (by decide)⟩

/-! C6 -/

/-- C6: in a document with no global name collision, each entry's slot of
the tool set depends only on that entry: a build-time error (malformed
entry, parameter conflict) aborts only the affected Tool Descriptor, and
every well-formed entry still yields a usable Tool Descriptor. -/
theorem build_error_isolated (entries : List PathEntry)
    (hn : (entries.map PathEntry.opName).Nodup) :
    ∃ ts, buildTools entries = .ok ts ∧ ts.length = entries.length ∧
      ∀ i, (hi : i < entries.length) → (hi' : i < ts.length) →
        ts.get ⟨i, hi'⟩ = (loadEntry (entries.get ⟨i, hi⟩) >>= compile) ∧
        ((loadEntry (entries.get ⟨i, hi⟩) >>= compile).isOk = true →
          (ts.get ⟨i, hi'⟩).isOk = true) := by
  refine ⟨entries.map fun e => loadEntry e >>= compile, ?_,
    List.length_map _ _, ?_⟩
  · unfold buildTools; rw [if_pos hn]
  · intro i hi hi'
    constructor
    · simp [List.getElem_map]
    · intro hok
      simpa [List.getElem_map] using hok

/-- A malformed Path Entry: its HTTP method is absent. -/
def badEntry : PathEntry :=
  { opName := "brokenOp", description := "An entry missing its method"
  , method := none
  , pathTemplate := some [.lit "maps", .lit "api", .lit "broken"]
  , params := []
  , hasBody := false
  , responses := some [200] }

/-- The Tool Descriptor compiled from detailsEntry. -/
def detailsTd : ToolDescriptor :=
  { name := "placeDetails", description := "Get details about a place"
  , inputSchema :=
      [ { name := "place_id", type := .string, required := true
        , placement := .query } ]
  , source :=
      { name := "placeDetails", description := "Get details about a place"
      , method := .get
      , pathTemplate := [.lit "maps", .lit "api", .lit "place",
          .lit "details", .lit "json"]
      , params := detailsEntry.params
      , hasBody := false
      , successCodes := [200] } }

/-- Witness for C6: a document holding one malformed and one well-formed
entry still builds; the malformed entry's slot carries the build error
while the well-formed entry's slot holds its usable Tool Descriptor. -/
theorem build_error_isolated_witness :
    (∃ ts, buildTools [badEntry, detailsEntry] = .ok ts ∧
      ts.length = 2 ∧
      ∀ i, (hi : i < 2) → (hi' : i < ts.length) →
        ts.get ⟨i, hi'⟩ =
          (loadEntry ([badEntry, detailsEntry].get ⟨i, hi⟩) >>= compile) ∧
        ((loadEntry ([badEntry, detailsEntry].get ⟨i, hi⟩) >>=
            compile).isOk = true → (ts.get ⟨i, hi'⟩).isOk = true)) ∧
    buildTools [badEntry, detailsEntry] =
      .ok [.error .malformedSpec, .ok detailsTd] :=
  ⟨build_error_isolated [badEntry, detailsEntry] (by decide), rfl⟩

/-! C8 -/

theorem mergeParams_nil (e : List (String × String)) : mergeParams [] e = e := by
  simp [mergeParams, List.lookup]

theorem invoke_requests_eq (t : Transport) (respond : Request → Outcome)
    (td : ToolDescriptor) (args : List (String × JVal)) (segs : List String)
    (hv : (validateArgs td.inputSchema args).isEmpty = true)
    (hp : substPath td.source.pathTemplate args = .ok segs) :
    (invoke t respond td args).2 = [buildRequest t td args segs] := by
  unfold invoke
  rw [if_pos hv, hp]
  cases hr : respond (buildRequest t td args segs) with
  | response s b =>
      by_cases hs : s ∈ td.source.successCodes <;> simp [hr, hs]
  | timedOut => simp [hr]
  | connRefused => simp [hr]

/-- C8: for every Operation with only path and query parameters and no
body, invoking its Tool Descriptor with valid arguments issues exactly one
request; its path is the rendered substitution of the path arguments into
the template, it has no body, and its query is the transport defaults
followed by the serialized query arguments — so with no transport defaults
the query string consists exactly of the substituted argument values. -/
theorem invoke_request_roundtrip (t : Transport) (respond : Request → Outcome)
    (td : ToolDescriptor) (args : List (String × JVal)) (segs : List String)
    (hpl : ∀ f ∈ td.inputSchema, f.placement = .path ∨ f.placement = .query)
    (hb : td.source.hasBody = false)
    (hv : (validateArgs td.inputSchema args).isEmpty = true)
    (hp : substPath td.source.pathTemplate args = .ok segs) :
    (invoke t respond td args).2 = [buildRequest t td args segs] ∧
    (buildRequest t td args segs).path = renderPath segs ∧
    (buildRequest t td args segs).body = none ∧
    (buildRequest t td args segs).query =
      mergeParams t.defaultParams
        (serializeFor .query td.inputSchema args) ∧
    (t.defaultParams = [] →
      (buildRequest t td args segs).query =
        serializeFor .query td.inputSchema args ∧
      ∀ f ∈ td.inputSchema, f.placement = .query →
        ∀ v, args.lookup f.name = some v →
          (f.name, stringifyJVal v) ∈ (buildRequest t td args segs).query) := by
  refine ⟨invoke_requests_eq t respond td args segs hv hp, rfl, ?_, rfl, ?_⟩
  · show (if td.source.hasBody then some _ else none) = none
    rw [hb]; rfl
  · intro hd
    have hq : (buildRequest t td args segs).query =
        serializeFor .query td.inputSchema args := by
      show mergeParams t.defaultParams _ = _
      rw [hd, mergeParams_nil]
    refine ⟨hq, ?_⟩
    intro f hf hfq v hvv
    rw [hq]
    refine List.mem_filterMap.mpr ⟨f, hf, ?_⟩
    rw [if_pos hfq, hvv]
    rfl

/-- A transport with no default parameters, for the round-trip example. -/
def bareTransport : Transport :=
  { baseUrl := "", defaultParams := [], timeout := 30 }

/-- The Tool Descriptor of the round-trip example of the spec: a GET
place-details operation with the single query parameter place_id. -/
def roundtripTd : ToolDescriptor :=
  { name := "placeDetails", description := "Get details about a place"
  , inputSchema := [⟨"place_id", .string, true, .query⟩]
  , source :=
      { name := "placeDetails", description := "Get details about a place"
      , method := .get
      , pathTemplate := [.lit "place", .lit "details"]
      , params :=
          [ { name := "place_id", type := .string, placement := some .query
            , required := true, defaultValue := none } ]
      , hasBody := false, successCodes := [200] } }

/-- Witness for C8, the literal example of the spec: argument
place_id = abc123 yields request path /place/details with query
place_id=abc123. -/
theorem invoke_request_roundtrip_witness :
    (invoke bareTransport (fun _ => .response 200 okBody) roundtripTd
        [("place_id", .str "abc123")]).2 =
      [{ method := .get, path := "/place/details"
       , query := [("place_id", "abc123")], headers := [], body := none }] := by
  have h := invoke_request_roundtrip bareTransport
    (fun _ => .response 200 okBody) roundtripTd [("place_id", .str "abc123")]
    ["place", "details"] (by decide) rfl rfl rfl
  rw [h.1]
  rfl

/-! C9 -/

/-- C9: a transport-level failure of the underlying request is surfaced as
a TransportError of the matching kind — Timeout when the request exceeds
the per-call timeout rather than blocking, Connection when the connection
is refused — with exactly one request issued and no internal retry. -/
theorem transport_failure_surfaced (t : Transport) (td : ToolDescriptor)
    (args : List (String × JVal)) (segs : List String)
    (hv : (validateArgs td.inputSchema args).isEmpty = true)
    (hp : substPath td.source.pathTemplate args = .ok segs) :
    invoke t (fun _ => .timedOut) td args =
      (.transportError .timeout, [buildRequest t td args segs]) ∧
    invoke t (fun _ => .connRefused) td args =
      (.transportError .connection, [buildRequest t td args segs]) := by
  constructor <;> (unfold invoke; rw [if_pos hv, hp])

/-- Witness for C9: a timed-out and a refused invocation of the sample
tool each yield the matching TransportError after exactly one request. -/
theorem transport_failure_surfaced_witness :
    invoke sampleTransport (fun _ => .timedOut) sampleTd
        [("query", .str "pizza")] =
      (.transportError .timeout,
        [buildRequest sampleTransport sampleTd [("query", .str "pizza")]
          ["maps", "api", "place", "textsearch", "json"]]) ∧
    invoke sampleTransport (fun _ => .connRefused) sampleTd
        [("query", .str "pizza")] =
      (.transportError .connection,
        [buildRequest sampleTransport sampleTd [("query", .str "pizza")]
          ["maps", "api", "place", "textsearch", "json"]]) :=
  transport_failure_surfaced sampleTransport sampleTd
    [("query", .str "pizza")] ["maps", "api", "place", "textsearch", "json"]
    rfl rfl

/-! C5 -/

/-- C5: with the credential environment variable absent, the Transport is
still constructed — with an empty credential — and building the tool set
succeeds or fails exactly as under any other environment (no startup
failure); the authentication failure surfaces only when a request is made,
as a RemoteError carrying the authentication-failure status the remote
service returns. -/
theorem absent_credential_defers_error (env : String → Option String)
    (doc : List PathEntry) (nm : String) (td : ToolDescriptor)
    (args : List (String × JVal)) (segs : List String) (s : Nat) (b : JVal)
    (henv : env credentialEnvVar = none)
    (hv : (validateArgs td.inputSchema args).isEmpty = true)
    (hp : substPath td.source.pathTemplate args = .ok segs)
    (hs : s ∉ td.source.successCodes) :
    mkClient env = { baseUrl := "https://maps.googleapis.com"
                   , defaultParams := [("key", "")], timeout := 30 } ∧
    (∀ env₂, (fromOpenapi doc (mkClient env) nm).isOk =
      (fromOpenapi doc (mkClient env₂) nm).isOk) ∧
    (invoke (mkClient env) (fun _ => .response s b) td args).1 =
      .remoteError s b := by
  refine ⟨by simp [mkClient, henv], ?_, ?_⟩
  · intro env₂
    unfold fromOpenapi
    cases buildTools doc <;> rfl
  · unfold invoke
    rw [if_pos hv, hp]
    simp [hs]

/-- Witness for C5: with no environment at all, the client still comes up
with an empty key, the sample document still builds, and a 403 from the
remote service surfaces as RemoteError 403 on the first invocation. -/
theorem absent_credential_defers_error_witness :
    mkClient (fun _ => none) =
      { baseUrl := "https://maps.googleapis.com"
      , defaultParams := [("key", "")], timeout := 30 } ∧
    (∀ env₂, (fromOpenapi [searchEntry] (mkClient (fun _ => none))
        "Google Places MCP Server").isOk =
      (fromOpenapi [searchEntry] (mkClient env₂)
        "Google Places MCP Server").isOk) ∧
    (invoke (mkClient (fun _ => none)) (fun _ => .response 403 errBody)
        sampleTd [("query", .str "pizza")]).1 = .remoteError 403 errBody :=
  absent_credential_defers_error (fun _ => none) [searchEntry]
    "Google Places MCP Server" sampleTd [("query", .str "pizza")]
    ["maps", "api", "place", "textsearch", "json"] 403 errBody
    rfl rfl rfl (by decide)

/-! C10 -/

/-- C10: the transport configuration is fixed: base URL
https://maps.googleapis.com, a 30 second timeout, and the credential — the
GOOGLE_API_KEY environment value, empty when unset — injected as the
default query parameter named key; the client depends on nothing but that
one variable, the server built from it holds that single shared transport,
and every request issued by any tool carries the credential as the query
parameter key. -/
theorem fixed_transport_configuration (env : String → Option String) :
    (mkClient env).baseUrl = "https://maps.googleapis.com" ∧
    (mkClient env).timeout = 30 ∧
    (mkClient env).defaultParams =
      [("key", (env credentialEnvVar).getD "")] ∧
    (∀ env₂, env credentialEnvVar = env₂ credentialEnvVar →
      mkClient env = mkClient env₂) ∧
    (∀ doc nm srv, fromOpenapi doc (mkClient env) nm = .ok srv →
      srv.transport = mkClient env) ∧
    (∀ respond td args req, req ∈ (invoke (mkClient env) respond td args).2 →
      req.query.lookup "key" = some ((env credentialEnvVar).getD "")) := by
  refine ⟨rfl, rfl, rfl, ?_, ?_, ?_⟩
  · intro env₂ h
    simp [mkClient, h]
  · intro doc nm srv h
    unfold fromOpenapi at h
    cases hb : buildTools doc with
    | ok ts => rw [hb] at h; cases h; rfl
    | error err => rw [hb] at h; cases h
  · intro respond td args req hreq
    obtain ⟨segs, _, rfl⟩ := invoke_requests (mkClient env) respond td args
      req hreq
    exact lookup_mergeParams_of_default _ _ "key" _ rfl

/-- Witness for C10: under an environment holding a concrete key, the
client carries the fixed base URL and timeout, and the one request of a
sample invocation sends that key. -/
theorem fixed_transport_configuration_witness :
    (mkClient (fun _ => some "SECRET")).baseUrl =
      "https://maps.googleapis.com" ∧
    (mkClient (fun _ => some "SECRET")).timeout = 30 ∧
    ∀ req ∈ (invoke (mkClient (fun _ => some "SECRET"))
        (fun _ => .response 200 okBody) sampleTd
        [("query", .str "pizza")]).2,
      req.query.lookup "key" = some "SECRET" := by
  have h := fixed_transport_configuration (fun _ => some "SECRET")
  exact ⟨h.1, h.2.1, fun req hreq => h.2.2.2.2.2 _ _ _ req hreq⟩

end PlacesMCP
